import Mathlib

/-!
Verification development for the `toxicnpcs` NPC decision core.

The Python decision core (`cognition/PersonalityEngine/personality.py`,
`cognition/DecisionEngine/stimulus.py`, `cognition/DecisionEngine/toolbox`,
`cognition/DecisionEngine/decision_engine.py`) is embedded shallowly:

* Python floats are modelled as rationals (`ℚ`); every numeric constant in
  the source is a short decimal, so all arithmetic used by the engine is
  exact in `ℚ`.
* Python dicts keyed by small enumerations are modelled as functions into
  `Option ℚ` (`dict.get(k, d)` becomes `(f k).getD d`); dicts with string
  or tool keys are modelled as association lists in insertion order with
  `alookup` (first match) playing the role of `dict.__getitem__`.
* The global tool registry `_TOOL_REGISTRY` is fixed at module import time
  in the source; it is embedded as the finite type `ToolClass` (one
  constructor per registered Python class, named after `cls.__name__`)
  together with its insertion-order listing and per-class attributes.
* Randomness (`random.uniform` inside `Personality.add_randomness`, and
  `random.choices` in tool selection) and the external LLM client are
  modelled as explicit oracles passed to the functions that consume them:
  a jitter assignment `ToolClass → ℚ`, a draw index for the weighted
  choice, and an `Except` value for the adapter call (`.error` models the
  client raising an exception).
* Python exceptions that escape a function are modelled with
  `Except String`; a `.error` result of `decideAndAct` corresponds to the
  call raising.
-/

namespace ToxicNpcs

/-- Clamp a rational to the unit interval, the ubiquitous
`max(0.0, min(1.0, x))` idiom of the source. -/
def clamp01 (x : ℚ) : ℚ := max 0 (min 1 x)

/-- Association-list lookup (first match), the model of Python dict lookup
for dicts embedded as insertion-ordered lists of pairs. -/
def alookup {α β : Type} [DecidableEq α] : List (α × β) → α → Option β
  | [], _ => none
  | (k, v) :: rest, a => if a = k then some v else alookup rest a

/-! ## Personality model (`cognition/PersonalityEngine/personality.py`) -/

/-- Enumeration `PersonalityDimension` from `personality.py`. -/
inductive PersonalityDimension : Type
  | aggressiveness
  | extraversion
  | neuroticism
  | openness
  | conscientiousness
  | agreeableness
  | dominance
  | riskTolerance
  deriving DecidableEq

/-- Enumeration `PersonalityModifier` from `personality.py`. -/
inductive PersonalityModifier : Type
  | stress
  | familiarity
  | trust
  | mood
  | powerDynamic
  deriving DecidableEq

/-- Dataclass `Personality`: trait and modifier dicts are modelled as
functions into `Option ℚ` (`none` = key absent). -/
structure Personality : Type where
  name : String
  traits : PersonalityDimension → Option ℚ
  modifiers : PersonalityModifier → Option ℚ
  quirks : List String
  description : Option String

namespace Personality

/-- `Personality.__post_init__`: clamps every *trait* value present in the
dict to [0,1]. Note that the modifier dict is left untouched. -/
def postInit (p : Personality) : Personality :=
  { p with traits := fun t => (p.traits t).map (fun v => clamp01 v) }

/-- Constructing a `Personality` in Python always runs `__post_init__`,
so every live instance is `postInit` of its raw field values. -/
def make (name : String) (traits : PersonalityDimension → Option ℚ)
    (modifiers : PersonalityModifier → Option ℚ) (quirks : List String)
    (description : Option String) : Personality :=
  postInit { name := name, traits := traits, modifiers := modifiers,
             quirks := quirks, description := description }

/-- `Personality.get_trait`: stored value or the 0.5 neutral default. -/
def getTrait (p : Personality) (t : PersonalityDimension) : ℚ :=
  (p.traits t).getD (1/2)

/-- `Personality.get_modifier`: stored value or the 0.5 neutral default. -/
def getModifier (p : Personality) (m : PersonalityModifier) : ℚ :=
  (p.modifiers m).getD (1/2)

/-- `Personality.update_modifier`: store the value clamped to [0,1]. -/
def updateModifier (p : Personality) (m : PersonalityModifier) (v : ℚ) :
    Personality :=
  { p with modifiers := fun m2 => if m2 = m then some (clamp01 v) else p.modifiers m2 }

/-- `Personality.influence_value`: shift `base_value` by
`(trait - 0.5) * influence_strength` and clamp. -/
def influenceValue (p : Personality) (baseValue : ℚ)
    (trait : PersonalityDimension) (influenceStrength : ℚ) : ℚ :=
  let traitValue := p.getTrait trait
  let traitInfluence := (traitValue - 1/2) * influenceStrength
  clamp01 (baseValue + traitInfluence)

/-- `Personality.add_randomness`: the sampled `random.uniform(-r, r)`
offset is externalized as the `randomFactor` argument; the function adds
it and clamps.  A reachable execution has `|randomFactor| ≤ r`. -/
def addRandomness (value randomFactor : ℚ) : ℚ :=
  clamp01 (value + randomFactor)

end Personality

/-! ## Stimulus model (`cognition/DecisionEngine/stimulus.py`) -/

/-- Enumeration `StimulusType`. -/
inductive StimulusType : Type
  | dialogue
  | gesture
  | environment
  | action
  | objectInteraction
  | physicalContact
  deriving DecidableEq

/-- Enumeration `StimulusSchema`.  Construction of an
`InterpretedStimulus` validates that every schema tag belongs to this
enumeration; embedding the tags as an inductive type makes that
invariant structural. -/
inductive StimulusSchema : Type
  | threat
  | praise
  | insult
  | deception
  | flirtation
  | dominanceAssertion
  | submission
  | betrayal
  | reassurance
  | request
  | violence
  | compassion
  | disgust
  | mystery
  | abandonment
  | sacrifice
  deriving DecidableEq

/-- Enumeration `StimulusIntent`. -/
inductive StimulusIntent : Type
  | provoke
  | humiliate
  | testLoyalty
  | buildRapport
  | warn
  | assertControl
  | escapeBlame
  | seekHelp
  | expressLove
  | askForForgiveness
  | manipulate
  deriving DecidableEq

/-- Enumeration `SalienceType`. -/
inductive SalienceType : Type
  | emotional
  | relationship
  | narrative
  | existential
  | moral
  deriving DecidableEq

/-- Dataclass `InterpretedStimulus` (the fields the decision core reads;
the memory/trauma/meta fields are carried by the Python object but never
consulted by the decision engine). The salience dict is an association
list. -/
structure InterpretedStimulus : Type where
  rawContent : String
  actor : String
  stimulusType : StimulusType
  schema : List StimulusSchema
  intent : StimulusIntent
  salience : List (SalienceType × ℚ)

namespace InterpretedStimulus

/-- `InterpretedStimulus.salience_score`: arithmetic mean of the salience
values present, `0.0` for an empty dict. -/
def salienceScore (s : InterpretedStimulus) : ℚ :=
  if s.salience = [] then 0
  else (s.salience.map Prod.snd).sum / s.salience.length

end InterpretedStimulus

/-! ## Tool registry (`cognition/DecisionEngine/toolbox/__init__.py`)

`_TOOL_REGISTRY` maps each registered class's `__name__` to the class.
`toolbox/__init__.py` imports exactly fourteen tool modules (in the order
below); `needs_tools.py` and `perception_tools.py` exist in the tree but
are never imported, so their classes are not registered.  `DeceiveTool`
and `PersuadeTool` are defined both in `dialogue_tools.py` and in
`communication_tools.py`; the later registration from
`communication_tools.py` overwrites the dict value while (per Python dict
semantics) keeping the original insertion position of the key. -/

/-- Module (category) names from `class ToolCategory` in
`decision_engine.py`; they equal the defining module file names, which is
what `_organize_tools_by_category` groups by (`cls.__module__`'s last
component). -/
inductive ToolCategory : Type
  | dialogue_tools
  | combat_tools
  | movement_tools
  | social_tools
  | emotional_tools
  | item_tools
  | environmental_tools
  | communication_tools
  | observation_tools
  | self_care_tools
  | everyday_object_tools
  | social_maneuvering_tools
  | cognitive_tools
  | subtle_expression_tools
  deriving DecidableEq

/-- One constructor per registered tool class, named after `cls.__name__`
(the `_TOOL_REGISTRY` key). -/
inductive ToolClass : Type
  | DialogueResponseTool
  | DeceiveTool
  | PersuadeTool
  | AskQuestionTool
  | MonologueTool
  | FleeTool
  | AttackTool
  | DefendTool
  | TauntTool
  | TacticalRepositionTool
  | ThreatenTool
  | DisarmTool
  | StunTool
  | ApproachTool
  | RetreatTool
  | CircleTool
  | HideTool
  | TakeCoverTool
  | GreetTool
  | OfferHelpTool
  | BargainTool
  | RequestInfoTool
  | BefriendTool
  | ApologizeTool
  | ExpressEmotionTool
  | LaughTool
  | CryTool
  | ShowConfusionTool
  | PanicTool
  | UseItemTool
  | GiveItemTool
  | TakeItemTool
  | ExamineItemTool
  | EquipItemTool
  | CraftItemTool
  | SearchAreaTool
  | InteractEnvironmentTool
  | CreateDistraction
  | SetTrapTool
  | ListenTool
  | GossipTool
  | ComplainTool
  | ComfortTool
  | EncourageTool
  | AdviseTool
  | ArgueTool
  | ObservePersonTool
  | ObserveEnvironmentTool
  | EavesdropTool
  | ReadBodyLanguageTool
  | InvestigateAnomalyTool
  | EatTool
  | DrinkTool
  | RestTool
  | GroomTool
  | SeekComfortTool
  | StretchTool
  | PickUpObjectTool
  | PutDownObjectTool
  | OpenObjectTool
  | CloseObjectTool
  | UseEverydayObjectTool
  | TidyUpTool
  | PrepareFoodOrDrinkTool
  | IgnoreTool
  | AvoidTool
  | JoinGroupTool
  | LeaveGroupTool
  | ShowPolitenessTool
  | ShowImpatienceTool
  | PonderTool
  | MakePlanTool
  | ReconsiderTool
  | DaydreamTool
  | RecallMemoryTool
  | FocusAttentionTool
  | SighTool
  | FidgetTool
  | ShiftWeightTool
  | GlanceTool
  | RaiseEyebrowTool
  | TightenLipsTool
  deriving DecidableEq

namespace ToolClass

/-- Defining module of each registered class (`cls.__module__`'s last
component), after the `communication_tools` re-registration of
`DeceiveTool` and `PersuadeTool` overwrote the `dialogue_tools`
definitions. -/
def module : ToolClass → ToolCategory
  | DialogueResponseTool | AskQuestionTool | MonologueTool | FleeTool =>
      .dialogue_tools
  | AttackTool | DefendTool | TauntTool | TacticalRepositionTool
  | ThreatenTool | DisarmTool | StunTool => .combat_tools
  | ApproachTool | RetreatTool | CircleTool | HideTool | TakeCoverTool =>
      .movement_tools
  | GreetTool | OfferHelpTool | BargainTool | RequestInfoTool
  | BefriendTool | ApologizeTool => .social_tools
  | ExpressEmotionTool | LaughTool | CryTool | ShowConfusionTool
  | PanicTool => .emotional_tools
  | UseItemTool | GiveItemTool | TakeItemTool | ExamineItemTool
  | EquipItemTool | CraftItemTool => .item_tools
  | SearchAreaTool | InteractEnvironmentTool | CreateDistraction
  | SetTrapTool | ListenTool => .environmental_tools
  | DeceiveTool | PersuadeTool | GossipTool | ComplainTool | ComfortTool
  | EncourageTool | AdviseTool | ArgueTool => .communication_tools
  | ObservePersonTool | ObserveEnvironmentTool | EavesdropTool
  | ReadBodyLanguageTool | InvestigateAnomalyTool => .observation_tools
  | EatTool | DrinkTool | RestTool | GroomTool | SeekComfortTool
  | StretchTool => .self_care_tools
  | PickUpObjectTool | PutDownObjectTool | OpenObjectTool
  | CloseObjectTool | UseEverydayObjectTool | TidyUpTool
  | PrepareFoodOrDrinkTool => .everyday_object_tools
  | IgnoreTool | AvoidTool | JoinGroupTool | LeaveGroupTool
  | ShowPolitenessTool | ShowImpatienceTool => .social_maneuvering_tools
  | PonderTool | MakePlanTool | ReconsiderTool | DaydreamTool
  | RecallMemoryTool | FocusAttentionTool => .cognitive_tools
  | SighTool | FidgetTool | ShiftWeightTool | GlanceTool
  | RaiseEyebrowTool | TightenLipsTool => .subtle_expression_tools

/-- Class attribute `name` of each tool (`tool_instance.name`, the value
recorded in the decision history). -/
def instanceName : ToolClass → String
  | DialogueResponseTool => "dialogue_response"
  | DeceiveTool => "deceive"
  | PersuadeTool => "persuade"
  | AskQuestionTool => "ask_question"
  | MonologueTool => "monologue"
  | FleeTool => "flee"
  | AttackTool => "attack"
  | DefendTool => "defend"
  | TauntTool => "taunt"
  | TacticalRepositionTool => "tactical_reposition"
  | ThreatenTool => "threaten"
  | DisarmTool => "disarm"
  | StunTool => "stun"
  | ApproachTool => "approach"
  | RetreatTool => "retreat"
  | CircleTool => "circle"
  | HideTool => "hide"
  | TakeCoverTool => "take_cover"
  | GreetTool => "greet"
  | OfferHelpTool => "offer_help"
  | BargainTool => "bargain"
  | RequestInfoTool => "request_info"
  | BefriendTool => "befriend"
  | ApologizeTool => "apologize"
  | ExpressEmotionTool => "express_emotion"
  | LaughTool => "laugh"
  | CryTool => "cry"
  | ShowConfusionTool => "show_confusion"
  | PanicTool => "panic"
  | UseItemTool => "use_item"
  | GiveItemTool => "give_item"
  | TakeItemTool => "take_item"
  | ExamineItemTool => "examine_item"
  | EquipItemTool => "equip_item"
  | CraftItemTool => "craft_item"
  | SearchAreaTool => "search_area"
  | InteractEnvironmentTool => "interact_environment"
  | CreateDistraction => "create_distraction"
  | SetTrapTool => "set_trap"
  | ListenTool => "listen"
  | GossipTool => "gossip"
  | ComplainTool => "complain"
  | ComfortTool => "comfort"
  | EncourageTool => "encourage"
  | AdviseTool => "advise"
  | ArgueTool => "argue"
  | ObservePersonTool => "observe_person"
  | ObserveEnvironmentTool => "observe_environment"
  | EavesdropTool => "eavesdrop"
  | ReadBodyLanguageTool => "read_body_language"
  | InvestigateAnomalyTool => "investigate_anomaly"
  | EatTool => "eat"
  | DrinkTool => "drink"
  | RestTool => "rest"
  | GroomTool => "groom"
  | SeekComfortTool => "seek_comfort"
  | StretchTool => "stretch"
  | PickUpObjectTool => "pick_up_object"
  | PutDownObjectTool => "put_down_object"
  | OpenObjectTool => "open_object"
  | CloseObjectTool => "close_object"
  | UseEverydayObjectTool => "use_everyday_object"
  | TidyUpTool => "tidy_up"
  | PrepareFoodOrDrinkTool => "prepare_food_or_drink"
  | IgnoreTool => "ignore"
  | AvoidTool => "avoid"
  | JoinGroupTool => "join_group"
  | LeaveGroupTool => "leave_group"
  | ShowPolitenessTool => "show_politeness"
  | ShowImpatienceTool => "show_impatience"
  | PonderTool => "ponder"
  | MakePlanTool => "make_plan"
  | ReconsiderTool => "reconsider"
  | DaydreamTool => "daydream"
  | RecallMemoryTool => "recall_memory"
  | FocusAttentionTool => "focus_attention"
  | SighTool => "sigh"
  | FidgetTool => "fidget"
  | ShiftWeightTool => "shift_weight"
  | GlanceTool => "glance"
  | RaiseEyebrowTool => "raise_eyebrow"
  | TightenLipsTool => "tighten_lips"

/-- Python `cls.__name__`, the `_TOOL_REGISTRY` key of each class. -/
def className : ToolClass → String
  | DialogueResponseTool => "DialogueResponseTool"
  | DeceiveTool => "DeceiveTool"
  | PersuadeTool => "PersuadeTool"
  | AskQuestionTool => "AskQuestionTool"
  | MonologueTool => "MonologueTool"
  | FleeTool => "FleeTool"
  | AttackTool => "AttackTool"
  | DefendTool => "DefendTool"
  | TauntTool => "TauntTool"
  | TacticalRepositionTool => "TacticalRepositionTool"
  | ThreatenTool => "ThreatenTool"
  | DisarmTool => "DisarmTool"
  | StunTool => "StunTool"
  | ApproachTool => "ApproachTool"
  | RetreatTool => "RetreatTool"
  | CircleTool => "CircleTool"
  | HideTool => "HideTool"
  | TakeCoverTool => "TakeCoverTool"
  | GreetTool => "GreetTool"
  | OfferHelpTool => "OfferHelpTool"
  | BargainTool => "BargainTool"
  | RequestInfoTool => "RequestInfoTool"
  | BefriendTool => "BefriendTool"
  | ApologizeTool => "ApologizeTool"
  | ExpressEmotionTool => "ExpressEmotionTool"
  | LaughTool => "LaughTool"
  | CryTool => "CryTool"
  | ShowConfusionTool => "ShowConfusionTool"
  | PanicTool => "PanicTool"
  | UseItemTool => "UseItemTool"
  | GiveItemTool => "GiveItemTool"
  | TakeItemTool => "TakeItemTool"
  | ExamineItemTool => "ExamineItemTool"
  | EquipItemTool => "EquipItemTool"
  | CraftItemTool => "CraftItemTool"
  | SearchAreaTool => "SearchAreaTool"
  | InteractEnvironmentTool => "InteractEnvironmentTool"
  | CreateDistraction => "CreateDistraction"
  | SetTrapTool => "SetTrapTool"
  | ListenTool => "ListenTool"
  | GossipTool => "GossipTool"
  | ComplainTool => "ComplainTool"
  | ComfortTool => "ComfortTool"
  | EncourageTool => "EncourageTool"
  | AdviseTool => "AdviseTool"
  | ArgueTool => "ArgueTool"
  | ObservePersonTool => "ObservePersonTool"
  | ObserveEnvironmentTool => "ObserveEnvironmentTool"
  | EavesdropTool => "EavesdropTool"
  | ReadBodyLanguageTool => "ReadBodyLanguageTool"
  | InvestigateAnomalyTool => "InvestigateAnomalyTool"
  | EatTool => "EatTool"
  | DrinkTool => "DrinkTool"
  | RestTool => "RestTool"
  | GroomTool => "GroomTool"
  | SeekComfortTool => "SeekComfortTool"
  | StretchTool => "StretchTool"
  | PickUpObjectTool => "PickUpObjectTool"
  | PutDownObjectTool => "PutDownObjectTool"
  | OpenObjectTool => "OpenObjectTool"
  | CloseObjectTool => "CloseObjectTool"
  | UseEverydayObjectTool => "UseEverydayObjectTool"
  | TidyUpTool => "TidyUpTool"
  | PrepareFoodOrDrinkTool => "PrepareFoodOrDrinkTool"
  | IgnoreTool => "IgnoreTool"
  | AvoidTool => "AvoidTool"
  | JoinGroupTool => "JoinGroupTool"
  | LeaveGroupTool => "LeaveGroupTool"
  | ShowPolitenessTool => "ShowPolitenessTool"
  | ShowImpatienceTool => "ShowImpatienceTool"
  | PonderTool => "PonderTool"
  | MakePlanTool => "MakePlanTool"
  | ReconsiderTool => "ReconsiderTool"
  | DaydreamTool => "DaydreamTool"
  | RecallMemoryTool => "RecallMemoryTool"
  | FocusAttentionTool => "FocusAttentionTool"
  | SighTool => "SighTool"
  | FidgetTool => "FidgetTool"
  | ShiftWeightTool => "ShiftWeightTool"
  | GlanceTool => "GlanceTool"
  | RaiseEyebrowTool => "RaiseEyebrowTool"
  | TightenLipsTool => "TightenLipsTool"

end ToolClass

/-- Insertion order of `_TOOL_REGISTRY` keys: module import order from
`toolbox/__init__.py`, class definition order within each module, with
`DeceiveTool`/`PersuadeTool` keeping their original (dialogue-module)
positions after being overwritten. -/
def registryOrder : List ToolClass :=
  [ToolClass.DialogueResponseTool, ToolClass.DeceiveTool, ToolClass.PersuadeTool, ToolClass.AskQuestionTool,
   ToolClass.MonologueTool, ToolClass.FleeTool,
   ToolClass.AttackTool, ToolClass.DefendTool, ToolClass.TauntTool, ToolClass.TacticalRepositionTool,
   ToolClass.ThreatenTool, ToolClass.DisarmTool, ToolClass.StunTool,
   ToolClass.ApproachTool, ToolClass.RetreatTool, ToolClass.CircleTool, ToolClass.HideTool, ToolClass.TakeCoverTool,
   ToolClass.GreetTool, ToolClass.OfferHelpTool, ToolClass.BargainTool, ToolClass.RequestInfoTool,
   ToolClass.BefriendTool, ToolClass.ApologizeTool,
   ToolClass.ExpressEmotionTool, ToolClass.LaughTool, ToolClass.CryTool, ToolClass.ShowConfusionTool,
   ToolClass.PanicTool,
   ToolClass.UseItemTool, ToolClass.GiveItemTool, ToolClass.TakeItemTool, ToolClass.ExamineItemTool,
   ToolClass.EquipItemTool, ToolClass.CraftItemTool,
   ToolClass.SearchAreaTool, ToolClass.InteractEnvironmentTool, ToolClass.CreateDistraction,
   ToolClass.SetTrapTool, ToolClass.ListenTool,
   ToolClass.GossipTool, ToolClass.ComplainTool, ToolClass.ComfortTool, ToolClass.EncourageTool, ToolClass.AdviseTool,
   ToolClass.ArgueTool,
   ToolClass.ObservePersonTool, ToolClass.ObserveEnvironmentTool, ToolClass.EavesdropTool,
   ToolClass.ReadBodyLanguageTool, ToolClass.InvestigateAnomalyTool,
   ToolClass.EatTool, ToolClass.DrinkTool, ToolClass.RestTool, ToolClass.GroomTool, ToolClass.SeekComfortTool,
   ToolClass.StretchTool,
   ToolClass.PickUpObjectTool, ToolClass.PutDownObjectTool, ToolClass.OpenObjectTool,
   ToolClass.CloseObjectTool, ToolClass.UseEverydayObjectTool, ToolClass.TidyUpTool,
   ToolClass.PrepareFoodOrDrinkTool,
   ToolClass.IgnoreTool, ToolClass.AvoidTool, ToolClass.JoinGroupTool, ToolClass.LeaveGroupTool,
   ToolClass.ShowPolitenessTool, ToolClass.ShowImpatienceTool,
   ToolClass.PonderTool, ToolClass.MakePlanTool, ToolClass.ReconsiderTool, ToolClass.DaydreamTool,
   ToolClass.RecallMemoryTool, ToolClass.FocusAttentionTool,
   ToolClass.SighTool, ToolClass.FidgetTool, ToolClass.ShiftWeightTool, ToolClass.GlanceTool,
   ToolClass.RaiseEyebrowTool, ToolClass.TightenLipsTool]

/-- Registered class names paired with their classes, in registry order:
the contents of `_TOOL_REGISTRY` once `toolbox/__init__.py` has run. -/
def toolRegistryList : List (String × ToolClass) :=
  registryOrder.map (fun c => (c.className, c))

/-- `toolbox.get_tool` modulo exception style: `none` models the
`KeyError` raised for an unregistered name. -/
def getTool (toolName : String) : Option ToolClass :=
  alookup toolRegistryList toolName

/-! ## Decision engine (`cognition/DecisionEngine/decision_engine.py`) -/

/-- The `mood_change` accumulation of `DecisionEngine._update_modifiers`:
starting from `0.0`, subtract 0.1 for a negative intent, add 0.1 for a
positive intent, subtract 0.1 when a negative schema is present, add 0.1
when a positive schema is present. -/
def moodDelta (stim : InterpretedStimulus) : ℚ :=
  (if stim.intent = .humiliate ∨ stim.intent = .provoke then -(1/10) else 0) +
  (if stim.intent = .buildRapport ∨ stim.intent = .expressLove then 1/10 else 0) +
  (if StimulusSchema.threat ∈ stim.schema ∨ StimulusSchema.insult ∈ stim.schema ∨
      StimulusSchema.violence ∈ stim.schema then -(1/10) else 0) +
  (if StimulusSchema.praise ∈ stim.schema ∨ StimulusSchema.reassurance ∈ stim.schema ∨
      StimulusSchema.compassion ∈ stim.schema then 1/10 else 0)

/-- `DecisionEngine._update_modifiers`: raise stress on a THREAT schema
scaled by emotional salience (`salience.get(EMOTIONAL, 0.5)`); then shift
mood by `moodDelta`, clamped.  The mood read happens after the stress
update, as in the source (the stress update does not touch mood). -/
def updateModifiers (p : Personality) (stim : InterpretedStimulus) :
    Personality :=
  let p1 :=
    if StimulusSchema.threat ∈ stim.schema then
      let currentStress := p.getModifier .stress
      let emotionalImpact := (alookup stim.salience SalienceType.emotional).getD (1/2)
      let stressIncrease := (1/5) * emotionalImpact
      p.updateModifier .stress (min 1 (currentStress + stressIncrease))
    else p
  let currentMood := p1.getModifier .mood
  p1.updateModifier .mood (max 0 (min 1 (currentMood + moodDelta stim)))

/-- Add `delta` to one category's entry of the category-relevance
association list (`result[category] += delta`). -/
def addCat (l : List (ToolCategory × ℚ)) (cat : ToolCategory) (delta : ℚ) :
    List (ToolCategory × ℚ) :=
  l.map (fun kv => if kv.1 = cat then (kv.1, kv.2 + delta) else kv)

/-- Apply a sequence of `result[category] += delta` statements in order. -/
def addCats (l : List (ToolCategory × ℚ)) (deltas : List (ToolCategory × ℚ)) :
    List (ToolCategory × ℚ) :=
  deltas.foldl (fun acc kv => addCat acc kv.1 kv.2) l

/-- `DecisionEngine._calculate_category_probabilities`: base relevance per
category, additive boosts from stimulus type / schema / intent / salience,
then normalization to sum 1. -/
def calculateCategoryProbabilities (stim : InterpretedStimulus) :
    List (ToolCategory × ℚ) :=
  let result : List (ToolCategory × ℚ) :=
    [(.dialogue_tools, 1/10), (.combat_tools, 1/10), (.movement_tools, 1/10),
     (.social_tools, 1/10), (.emotional_tools, 1/10), (.item_tools, 1/10),
     (.environmental_tools, 1/10), (.communication_tools, 1/20),
     (.observation_tools, 1/20), (.self_care_tools, 1/20),
     (.everyday_object_tools, 1/20), (.social_maneuvering_tools, 1/20),
     (.cognitive_tools, 1/20), (.subtle_expression_tools, 1/20)]
  let result :=
    match stim.stimulusType with
    | .dialogue =>
        addCats result
          [(.dialogue_tools, 2/5), (.social_tools, 1/5), (.emotional_tools, 1/10),
           (.communication_tools, 1/5), (.subtle_expression_tools, 1/10),
           (.cognitive_tools, 1/20)]
    | .gesture =>
        addCats result
          [(.movement_tools, 1/5), (.social_tools, 1/5), (.emotional_tools, 1/5),
           (.observation_tools, 3/20), (.subtle_expression_tools, 1/10)]
    | .action =>
        addCats result
          [(.movement_tools, 1/5), (.combat_tools, 1/5), (.observation_tools, 1/10)]
    | .environment =>
        let r :=
          addCats result
            [(.environmental_tools, 2/5), (.movement_tools, 1/5),
             (.observation_tools, 1/5)]
        if stim.salienceScore < 3/10 then
          addCats r
            [(.cognitive_tools, 1/10), (.self_care_tools, 1/20),
             (.everyday_object_tools, 1/20)]
        else r
    | .objectInteraction =>
        addCats result
          [(.item_tools, 2/5), (.environmental_tools, 1/5),
           (.everyday_object_tools, 3/10), (.observation_tools, 1/10)]
    | .physicalContact =>
        addCats result
          [(.combat_tools, 3/10), (.movement_tools, 1/5), (.emotional_tools, 1/5),
           (.social_tools, 1/10), (.communication_tools, 1/20)]
  let result :=
    if StimulusSchema.threat ∈ stim.schema ∨ StimulusSchema.violence ∈ stim.schema then
      addCats result
        [(.combat_tools, 1/5), (.movement_tools, 1/5), (.emotional_tools, 1/10),
         (.social_maneuvering_tools, 1/10)]
    else result
  let result :=
    if StimulusSchema.praise ∈ stim.schema ∨ StimulusSchema.flirtation ∈ stim.schema then
      addCats result
        [(.social_tools, 3/10), (.emotional_tools, 1/5), (.dialogue_tools, 1/10),
         (.subtle_expression_tools, 1/10)]
    else result
  let result :=
    if StimulusSchema.request ∈ stim.schema then
      addCats result
        [(.dialogue_tools, 1/5), (.social_tools, 3/20), (.communication_tools, 1/5),
         (.cognitive_tools, 1/10)]
    else result
  let result :=
    if StimulusSchema.mystery ∈ stim.schema then
      addCats result
        [(.observation_tools, 3/10), (.environmental_tools, 3/20),
         (.cognitive_tools, 1/5)]
    else result
  let result :=
    if StimulusSchema.deception ∈ stim.schema then
      addCats result
        [(.observation_tools, 3/20), (.cognitive_tools, 1/10),
         (.communication_tools, 1/10)]
    else result
  let result :=
    if stim.intent = .provoke ∨ stim.intent = .humiliate then
      addCats result [(.combat_tools, 1/10), (.emotional_tools, 1/5)]
    else result
  let result :=
    if stim.intent = .buildRapport ∨ stim.intent = .expressLove then
      addCats result [(.social_tools, 3/10), (.dialogue_tools, 1/5)]
    else result
  let result :=
    match alookup stim.salience SalienceType.emotional with
    | some v => if 7/10 < v then addCat result .emotional_tools (1/5) else result
    | none => result
  let total := (result.map Prod.snd).sum
  result.map (fun kv => (kv.1, kv.2 / total))

/-- Seeding pass of `_calculate_tool_probabilities`: each category's
relevance is split evenly over the tools registered under it (every
category key of `_tools_by_category` is nonempty, so the `else 0` branch
of `tool_base_prob` is unreachable).  Tool insertion order follows the
category iteration order, then registry order within a category, exactly
as the Python dict is filled. -/
def initialToolProbabilities (catProbs : List (ToolCategory × ℚ)) :
    List (ToolClass × ℚ) :=
  catProbs.flatMap (fun cp =>
    let toolsInCategory := registryOrder.filter (fun t => t.module = cp.1)
    toolsInCategory.map (fun t => (t, cp.2 / toolsInCategory.length)))

/-- `DecisionEngine._adjust_tool_probability_group`: split the total
adjustment evenly over the group members present in the pool and add it
to each. -/
def adjustToolProbabilityGroup (probs : List (ToolClass × ℚ))
    (toolNames : List ToolClass) (totalAdjustment : ℚ) :
    List (ToolClass × ℚ) :=
  let availableTools := toolNames.filter (fun t => (alookup probs t).isSome)
  if availableTools = [] then probs
  else
    let perToolAdjustment := totalAdjustment / availableTools.length
    probs.map (fun kv =>
      if kv.1 ∈ availableTools then (kv.1, kv.2 + perToolAdjustment) else kv)

/-- `DecisionEngine._adjust_probabilities_for_stimulus`. -/
def adjustProbabilitiesForStimulus (probs : List (ToolClass × ℚ))
    (stim : InterpretedStimulus) : List (ToolClass × ℚ) :=
  let probs :=
    if StimulusSchema.threat ∈ stim.schema then
      adjustToolProbabilityGroup
        (adjustToolProbabilityGroup probs
          [.FleeTool, .HideTool, .TakeCoverTool] (3/10))
        [.DefendTool, .ThreatenTool] (1/5)
    else probs
  let probs :=
    if StimulusSchema.violence ∈ stim.schema then
      adjustToolProbabilityGroup
        (adjustToolProbabilityGroup probs [.FleeTool, .RetreatTool] (3/10))
        [.AttackTool, .DefendTool] (3/10)
    else probs
  let probs :=
    if StimulusSchema.flirtation ∈ stim.schema then
      adjustToolProbabilityGroup probs
        [.DialogueResponseTool, .ExpressEmotionTool] (3/10)
    else probs
  let probs :=
    if stim.stimulusType = .dialogue then
      adjustToolProbabilityGroup probs
        [.DialogueResponseTool, .AskQuestionTool, .MonologueTool] (2/5)
    else probs
  if stim.intent = .humiliate then
    adjustToolProbabilityGroup probs
      [.ExpressEmotionTool, .DialogueResponseTool] (1/5)
  else if stim.intent = .buildRapport then
    adjustToolProbabilityGroup probs
      [.DialogueResponseTool, .ExpressEmotionTool, .BefriendTool] (3/10)
  else if stim.intent = .warn then
    adjustToolProbabilityGroup probs
      [.RetreatTool, .DefendTool, .FleeTool] (3/10)
  else probs

/-- `DecisionEngine._adjust_probabilities_for_personality` (the stimulus
parameter is unused in the source body as well), ending with the
`max(0.0, ...)` sweep over all entries. -/
def adjustProbabilitiesForPersonality (probs : List (ToolClass × ℚ))
    (p : Personality) (_stim : InterpretedStimulus) : List (ToolClass × ℚ) :=
  let aggressiveness := p.getTrait .aggressiveness
  let probs :=
    if 7/10 < aggressiveness then
      adjustToolProbabilityGroup
        (adjustToolProbabilityGroup probs
          [.AttackTool, .ThreatenTool, .ArgueTool] (1/5))
        [.FleeTool, .HideTool, .RetreatTool, .ComfortTool, .ApologizeTool,
         .ShowPolitenessTool] (-(1/5))
    else if aggressiveness < 3/10 then
      adjustToolProbabilityGroup
        (adjustToolProbabilityGroup probs
          [.FleeTool, .HideTool, .RetreatTool, .ComfortTool, .ApologizeTool,
           .ShowPolitenessTool] (1/5))
        [.AttackTool, .ThreatenTool, .ArgueTool] (-(1/5))
    else probs
  let extraversion := p.getTrait .extraversion
  let probs :=
    if 7/10 < extraversion then
      adjustToolProbabilityGroup
        (adjustToolProbabilityGroup probs
          [.DialogueResponseTool, .GreetTool, .AskQuestionTool, .MonologueTool,
           .BefriendTool, .PersuadeTool, .GossipTool, .EncourageTool,
           .JoinGroupTool] (1/4))
        [.IgnoreTool, .AvoidTool, .PonderTool] (-(3/20))
    else if extraversion < 3/10 then
      adjustToolProbabilityGroup
        (adjustToolProbabilityGroup probs
          [.HideTool, .SearchAreaTool, .ListenTool, .IgnoreTool, .AvoidTool,
           .LeaveGroupTool, .PonderTool, .DaydreamTool, .ObservePersonTool] (1/4))
        [.GreetTool, .JoinGroupTool, .PersuadeTool] (-(3/20))
    else probs
  let neuroticism := p.getTrait .neuroticism
  let probs :=
    if 7/10 < neuroticism then
      adjustToolProbabilityGroup probs
        [.ExpressEmotionTool, .PanicTool, .FleeTool, .ComplainTool, .CryTool,
         .SeekComfortTool, .FidgetTool, .SighTool, .ShowImpatienceTool,
         .ReconsiderTool] (1/4)
    else if neuroticism < 3/10 then
      adjustToolProbabilityGroup
        (adjustToolProbabilityGroup probs
          [.ComfortTool, .ShowPolitenessTool] (1/10))
        [.PanicTool, .ComplainTool, .FidgetTool] (-(1/10))
    else probs
  let openness := p.getTrait .openness
  let probs :=
    if 7/10 < openness then
      adjustToolProbabilityGroup probs
        [.SearchAreaTool, .ExamineItemTool, .AskQuestionTool,
         .ObserveEnvironmentTool, .InvestigateAnomalyTool, .EavesdropTool,
         .RecallMemoryTool] (1/5)
    else if openness < 3/10 then
      adjustToolProbabilityGroup
        (adjustToolProbabilityGroup probs [.AvoidTool] (1/10))
        [.InvestigateAnomalyTool, .EavesdropTool] (-(1/10))
    else probs
  let conscientiousness := p.getTrait .conscientiousness
  let probs :=
    if 7/10 < conscientiousness then
      adjustToolProbabilityGroup probs
        [.ExamineItemTool, .CraftItemTool, .SetTrapTool, .MakePlanTool,
         .FocusAttentionTool, .TidyUpTool, .PrepareFoodOrDrinkTool] (1/5)
    else if conscientiousness < 3/10 then
      adjustToolProbabilityGroup
        (adjustToolProbabilityGroup probs
          [.DaydreamTool, .CreateDistraction, .FidgetTool] (3/20))
        [.MakePlanTool, .FocusAttentionTool, .TidyUpTool] (-(1/10))
    else probs
  let agreeableness := p.getTrait .agreeableness
  let probs :=
    if 7/10 < agreeableness then
      adjustToolProbabilityGroup
        (adjustToolProbabilityGroup probs
          [.OfferHelpTool, .ApologizeTool, .BefriendTool, .ComfortTool,
           .EncourageTool, .ShowPolitenessTool] (1/4))
        [.ThreatenTool, .AttackTool, .ArgueTool, .DeceiveTool, .ComplainTool]
        (-(3/20))
    else if agreeableness < 3/10 then
      adjustToolProbabilityGroup
        (adjustToolProbabilityGroup probs
          [.ArgueTool, .ComplainTool, .DeceiveTool, .ThreatenTool] (1/5))
        [.OfferHelpTool, .ApologizeTool, .ComfortTool, .ShowPolitenessTool]
        (-(3/20))
    else probs
  let dominance := p.getTrait .dominance
  let probs :=
    if 7/10 < dominance then
      adjustToolProbabilityGroup probs
        [.PersuadeTool, .ThreatenTool, .ArgueTool, .MakePlanTool] (1/5)
    else if dominance < 3/10 then
      adjustToolProbabilityGroup probs
        [.ShowPolitenessTool, .ApologizeTool, .RequestInfoTool] (3/20)
    else probs
  let riskTolerance := p.getTrait .riskTolerance
  let probs :=
    if 7/10 < riskTolerance then
      adjustToolProbabilityGroup probs
        [.InvestigateAnomalyTool, .ApproachTool, .DeceiveTool] (3/20)
    else if riskTolerance < 3/10 then
      adjustToolProbabilityGroup probs
        [.AvoidTool, .RetreatTool, .TakeCoverTool, .PonderTool] (1/5)
    else probs
  let stress := p.getModifier .stress
  let probs :=
    if 7/10 < stress then
      adjustToolProbabilityGroup
        (adjustToolProbabilityGroup probs
          [.PanicTool, .FleeTool, .ExpressEmotionTool, .RetreatTool,
           .ComplainTool, .FidgetTool, .SighTool, .ShowImpatienceTool,
           .SeekComfortTool, .AvoidTool] (3/10))
        [.FocusAttentionTool, .MakePlanTool, .PonderTool] (-(1/5))
    else probs
  let mood := p.getModifier .mood
  let probs :=
    if mood < 3/10 then
      adjustToolProbabilityGroup
        (adjustToolProbabilityGroup probs
          [.ExpressEmotionTool, .DialogueResponseTool, .ComplainTool,
           .ArgueTool, .SighTool, .IgnoreTool, .ShowImpatienceTool] (1/5))
        [.EncourageTool, .LaughTool, .OfferHelpTool, .GreetTool] (-(3/20))
    else if 7/10 < mood then
      adjustToolProbabilityGroup
        (adjustToolProbabilityGroup probs
          [.DialogueResponseTool, .ExpressEmotionTool, .LaughTool, .GreetTool,
           .OfferHelpTool, .EncourageTool, .DaydreamTool] (1/5))
        [.ComplainTool, .ArgueTool, .SighTool] (-(1/10))
    else probs
  probs.map (fun kv => (kv.1, max 0 kv.2))

/-- Last two statements of `_calculate_tool_probabilities`: drop entries
with weight at or below 0.01, then normalize to sum 1 when the kept total
is positive (`if total > 0`). -/
def pruneAndNormalize (probabilities : List (ToolClass × ℚ)) :
    List (ToolClass × ℚ) :=
  let probabilities := probabilities.filter (fun kv => 1/100 < kv.2)
  let total := (probabilities.map Prod.snd).sum
  if 0 < total then probabilities.map (fun kv => (kv.1, kv.2 / total))
  else probabilities

/-- `_calculate_tool_probabilities` up to (and including) the jitter pass:
seeding from category relevance, stimulus adjustments, personality
adjustments, then `add_randomness` on every entry. -/
def jitteredToolProbabilities (p : Personality) (stim : InterpretedStimulus)
    (jitter : ToolClass → ℚ) : List (ToolClass × ℚ) :=
  let categoryProbabilities := calculateCategoryProbabilities stim
  let probabilities := initialToolProbabilities categoryProbabilities
  let probabilities := adjustProbabilitiesForStimulus probabilities stim
  let probabilities := adjustProbabilitiesForPersonality probabilities p stim
  probabilities.map (fun kv =>
    (kv.1, Personality.addRandomness kv.2 (jitter kv.1)))

/-- `DecisionEngine._calculate_tool_probabilities`: seeding, stimulus and
personality adjustments, jitter, pruning at the 0.01 threshold, and
renormalization when the kept total is positive. -/
def calculateToolProbabilities (p : Personality) (stim : InterpretedStimulus)
    (jitter : ToolClass → ℚ) : List (ToolClass × ℚ) :=
  pruneAndNormalize (jitteredToolProbabilities p stim jitter)

/-- The `action_to_tool` dict literal inside
`DecisionEngine._map_action_to_tool`, in source order. -/
def actionToToolTable : List (String × String) :=
  [("attack", "AttackTool"),
   ("defend", "DefendTool"),
   ("threaten", "ThreatenTool"),
   ("disarm", "DisarmTool"),
   ("stun", "StunTool"),
   ("flee", "FleeTool"),
   ("retreat", "RetreatTool"),
   ("hide", "HideTool"),
   ("approach", "ApproachTool"),
   ("circle", "CircleTool"),
   ("take_cover", "TakeCoverTool"),
   ("greet", "GreetTool"),
   ("apologize", "ApologizeTool"),
   ("offer_help", "OfferHelpTool"),
   ("befriend", "BefriendTool"),
   ("bargain", "BargainTool"),
   ("request_info", "RequestInfoTool"),
   ("express_emotion", "ExpressEmotionTool"),
   ("laugh", "LaughTool"),
   ("cry", "CryTool"),
   ("panic", "PanicTool"),
   ("show_confusion", "ShowConfusionTool"),
   ("use_item", "UseItemTool"),
   ("give_item", "GiveItemTool"),
   ("take_item", "TakeItemTool"),
   ("examine_item", "ExamineItemTool"),
   ("equip_item", "EquipItemTool"),
   ("craft_item", "CraftItemTool"),
   ("search_area", "SearchAreaTool"),
   ("listen", "ListenTool"),
   ("set_trap", "SetTrapTool"),
   ("create_distraction", "CreateDistraction"),
   ("interact_environment", "InteractEnvironmentTool"),
   ("persuade", "PersuadeTool"),
   ("deceive", "DeceiveTool"),
   ("gossip", "GossipTool"),
   ("complain", "ComplainTool"),
   ("comfort", "ComfortTool"),
   ("encourage", "EncourageTool"),
   ("advise", "AdviseTool"),
   ("argue", "ArgueTool"),
   ("observe_person", "ObservePersonTool"),
   ("observe_environment", "ObserveEnvironmentTool"),
   ("eavesdrop", "EavesdropTool"),
   ("read_body_language", "ReadBodyLanguageTool"),
   ("investigate_anomaly", "InvestigateAnomalyTool"),
   ("eat", "EatTool"),
   ("drink", "DrinkTool"),
   ("rest", "RestTool"),
   ("groom", "GroomTool"),
   ("seek_comfort", "SeekComfortTool"),
   ("stretch", "StretchTool"),
   ("pick_up_object", "PickUpObjectTool"),
   ("put_down_object", "PutDownObjectTool"),
   ("open_object", "OpenObjectTool"),
   ("close_object", "CloseObjectTool"),
   ("use_everyday_object", "UseEverydayObjectTool"),
   ("tidy_up", "TidyUpTool"),
   ("prepare_food_or_drink", "PrepareFoodOrDrinkTool"),
   ("ignore", "IgnoreTool"),
   ("avoid", "AvoidTool"),
   ("join_group", "JoinGroupTool"),
   ("leave_group", "LeaveGroupTool"),
   ("show_politeness", "ShowPolitenessTool"),
   ("show_impatience", "ShowImpatienceTool"),
   ("ponder", "PonderTool"),
   ("make_plan", "MakePlanTool"),
   ("reconsider", "ReconsiderTool"),
   ("daydream", "DaydreamTool"),
   ("recall_memory", "RecallMemoryTool"),
   ("focus_attention", "FocusAttentionTool"),
   ("sigh", "SighTool"),
   ("fidget", "FidgetTool"),
   ("shift_weight", "ShiftWeightTool"),
   ("glance", "GlanceTool"),
   ("raise_eyebrow", "RaiseEyebrowTool"),
   ("tighten_lips", "TightenLipsTool")]

/-- Python `str.startswith`, written on the underlying character lists
(extensionally the same test as `String.startsWith`). -/
def strStartsWith (s pre : String) : Bool :=
  pre.data.isPrefixOf s.data

/-- `DecisionEngine._map_action_to_tool`: generic speech-style mappings
are checked first, then the direct table, then the dialogue-response
fallback for any other identifier. -/
def mapActionToTool (action : String) : String :=
  if strStartsWith action "say_" || strStartsWith action "speak_" ||
     action = "speak" || action = "say" then "DialogueResponseTool"
  else if strStartsWith action "ask_" then "AskQuestionTool"
  else if strStartsWith action "monologue_" || action = "monologue" then "MonologueTool"
  else
    match alookup actionToToolTable action with
    | some toolName => toolName
    | none => "DialogueResponseTool"

/-- `DecisionEngine._decision_to_tool`: take the decision dict's
`action` value (defaulting to `dialogue_response` when absent), map it
to a class name, and look the class up; the `except KeyError` branch
falls back to `DialogueResponseTool`. -/
def decisionToTool (decisionAction : Option String) : ToolClass :=
  let action := decisionAction.getD "dialogue_response"
  let toolName := mapActionToTool action
  match getTool toolName with
  | some cls => cls
  | none => ToolClass.DialogueResponseTool

/-- State of a `DecisionEngine` instance.  `hasClient` models
`self.decision_client is not None`; the cached `_tools_by_category` is a
pure function of the fixed global registry and is embedded as such. -/
structure DecisionEngine : Type where
  useLlm : Bool
  hasClient : Bool
  personality : Personality
  decisionHistory : List (InterpretedStimulus × String)

/-- Oracles for one `decide_and_act` call: the adapter outcome of
`DecisionClient.decide_action` (`.ok` carries the returned decision
dict's optional `action` value, `.error` models the call raising), the
per-tool jitter drawn by `add_randomness` (a reachable draw has every
offset in `[-0.15, 0.15]`), and the index drawn by `random.choices`
(reduced modulo the pool size; every pool entry has positive weight, so
every index denotes a reachable draw). -/
structure DecisionOracles : Type where
  adapterAction : Except String (Option String)
  jitter : ToolClass → ℚ
  pick : ℕ

/-- `DecisionEngine.__init__` with an explicitly supplied personality:
resets the MOOD modifier to 0.5 and the STRESS modifier to 0.2 on the
personality it takes ownership of. -/
def engineInit (useLlm hasClient : Bool) (personality : Personality) :
    DecisionEngine :=
  let p1 := personality.updateModifier .mood (1/2)
  let p2 := p1.updateModifier .stress (1/5)
  { useLlm := useLlm, hasClient := hasClient, personality := p2,
    decisionHistory := [] }

/-- `random.choices(tools, weights, k=1)[0]` over the pruned pool: the
draw is externalized as an index, reduced modulo the pool size.  Every
kept entry has positive weight, so each index denotes a possible draw;
the default value is only reached on an empty pool, where the source
raises before sampling. -/
def weightedPick (probs : List (ToolClass × ℚ)) (pick : ℕ) : ToolClass :=
  (probs.getD (pick % probs.length) (ToolClass.DialogueResponseTool, 0)).1

/-- First maximal entry of the pool
(`max(tool_probs.items(), key=lambda x: x[1])`; Python `max` keeps the
earliest entry on ties). -/
def maxByWeight : List (ToolClass × ℚ) → Option (ToolClass × ℚ)
  | [] => none
  | kv :: rest =>
      some (rest.foldl (fun best x => if best.2 < x.2 then x else best) kv)

/-- `DecisionEngine._llm_select_tool`: on an adapter exception the
`except` block recomputes heuristic probabilities and re-samples; the
`zip(*tool_probabilities.items())` unpacking inside that block raises a
fresh `ValueError` when the pool is empty, which propagates (nothing
catches it). -/
def llmSelectTool (p : Personality) (stim : InterpretedStimulus)
    (oracles : DecisionOracles) : Except String ToolClass :=
  match oracles.adapterAction with
  | .ok decision => .ok (decisionToTool decision)
  | .error _ =>
      let toolProbabilities := calculateToolProbabilities p stim oracles.jitter
      if toolProbabilities = [] then
        .error "not enough values to unpack (expected 2, got 0)"
      else .ok (weightedPick toolProbabilities oracles.pick)

/-- `DecisionEngine._select_tool`: LLM path (real client or the mock
argmax placeholder) when `use_llm` is set, otherwise heuristic weighted
sampling; an empty heuristic pool raises `ValueError`. -/
def selectTool (e : DecisionEngine) (stim : InterpretedStimulus)
    (oracles : DecisionOracles) : Except String ToolClass :=
  if e.useLlm then
    if e.hasClient then llmSelectTool e.personality stim oracles
    else
      let toolProbabilities := calculateToolProbabilities e.personality stim oracles.jitter
      .ok (match maxByWeight toolProbabilities with
           | some kv => kv.1
           | none => ToolClass.DialogueResponseTool)
  else
    let toolProbabilities := calculateToolProbabilities e.personality stim oracles.jitter
    if toolProbabilities = [] then
      .error "No suitable tools available for decision."
    else .ok (weightedPick toolProbabilities oracles.pick)

/-- Invoking the chosen tool.  The concrete `execute` implementations in
`toolbox/*.py` are out-of-scope stateless formatters (spec section 1):
every parameter of every `execute` is optional with a default, the body
is string formatting only, and no tool reads or writes engine state, so
each call returns a description string and never raises.  The claims
never inspect the text, so the embedding returns a canonical description.
`_build_tool_kwargs` only *reads* personality traits/modifiers and the
stimulus to choose formatting parameters; it is absorbed here. -/
def toolExecute (cls : ToolClass) : String :=
  "NPC action: " ++ cls.instanceName

/-- `DecisionEngine.decide_and_act`: update modifiers, select a tool,
execute it, append `(stimulus, tool_instance.name)` to the history and
return the description.  A `.error` result models the call raising (in
the source the modifier update has already mutated `self.personality` at
that point; the returned-state model only reports states of completed
calls). -/
def decideAndAct (e : DecisionEngine) (stim : InterpretedStimulus)
    (oracles : DecisionOracles) : Except String (DecisionEngine × String) :=
  let e1 := { e with personality := updateModifiers e.personality stim }
  match selectTool e1 stim oracles with
  | .error msg => .error msg
  | .ok toolCls =>
      let actionResult := toolExecute toolCls
      .ok ({ e1 with
              decisionHistory := e1.decisionHistory ++ [(stim, toolCls.instanceName)] },
           actionResult)

/-! ## Concrete instances used by witnesses and counterexamples -/

/-- A personality with empty trait and modifier dicts: every lookup
returns the neutral 0.5 default. -/
def pNeutral : Personality :=
  Personality.make "Default NPC" (fun _ => none) (fun _ => none) [] none

/-- The spec's scenario personality: aggressiveness 0.9, neuroticism 0.7,
stress and mood at 0.5. -/
def pScenario : Personality :=
  Personality.make "Scenario NPC"
    (fun t =>
      match t with
      | .aggressiveness => some (9/10)
      | .neuroticism => some (7/10)
      | _ => none)
    (fun m =>
      match m with
      | .stress => some (1/2)
      | .mood => some (1/2)
      | _ => none)
    [] none

/-- A personality whose modifier dict holds an out-of-range value at
construction time (`__post_init__` clamps only traits). -/
def pBadModifiers : Personality :=
  Personality.make "npc" (fun _ => none)
    (fun m => if m = PersonalityModifier.mood then some (3/2) else none)
    [] none

/-- A personality with a non-neutral stored mood, to observe the engine
constructor's modifier reset. -/
def pMoodHigh : Personality :=
  Personality.make "npc" (fun _ => none)
    (fun m => if m = PersonalityModifier.mood then some (9/10) else none)
    [] none

/-- The spec's scenario stimulus: dialogue carrying the insult schema with
humiliate intent and emotional salience 0.9. -/
def stimInsult : InterpretedStimulus :=
  { rawContent := "You are pathetic", actor := "player",
    stimulusType := .dialogue, schema := [.insult], intent := .humiliate,
    salience := [(.emotional, 9/10)] }

/-- A low-salience environment stimulus with no schema tags and an intent
that triggers no rule; every heuristic tool weight stays below the 0.15
jitter spread. -/
def stimEnv : InterpretedStimulus :=
  { rawContent := "a cold wind blows", actor := "environment",
    stimulusType := .environment, schema := [], intent := .testLoyalty,
    salience := [] }

/-- Heuristic-path engine owning the neutral personality. -/
def engineNeutral : DecisionEngine := engineInit false false pNeutral

/-- LLM-path engine (`use_llm=True`) with a decision client configured. -/
def engineLlm : DecisionEngine := engineInit true true pNeutral

/-- One decision cycle's random draws: the adapter call raises, jitter is
0 for every tool (an interior point of the `uniform(-0.15, 0.15)`
support), and the weighted choice takes the first pool entry. -/
def oraclesZero : DecisionOracles :=
  { adapterAction := .error "service unavailable", jitter := fun _ => 0,
    pick := 0 }

/-- Random draws with every jitter offset at the lower end `-0.15` of the
`uniform(-0.15, 0.15)` support; the adapter call raises. -/
def oraclesLow : DecisionOracles :=
  { adapterAction := .error "service unavailable",
    jitter := fun _ => -(3/20), pick := 0 }

/-! ## Helper lemmas -/

unseal Rat.add Rat.mul Rat.inv Rat.sub

set_option maxRecDepth 100000

theorem clamp01_nonneg (x : ℚ) : 0 ≤ clamp01 x := le_max_left 0 _

theorem clamp01_le_one (x : ℚ) : clamp01 x ≤ 1 :=
  max_le (by norm_num) (min_le_left 1 x)

theorem clamp01_eq_self (x : ℚ) (h0 : 0 ≤ x) (h1 : x ≤ 1) : clamp01 x = x := by
  unfold clamp01
  rw [min_eq_right h1, max_eq_right h0]

theorem clamp01_clamp01 (x : ℚ) : clamp01 (clamp01 x) = clamp01 x :=
  clamp01_eq_self _ (clamp01_nonneg x) (clamp01_le_one x)

theorem clamp01_sub_lt (m d : ℚ) (hm : 0 < m) (hd : 0 < d) :
    clamp01 (m - d) < m := by
  unfold clamp01
  exact max_lt hm (lt_of_le_of_lt (min_le_right 1 (m - d)) (by linarith))

theorem abs_clamp01_shift (m d : ℚ) (h0 : 0 ≤ m) (h1 : m ≤ 1) :
    |clamp01 (m + d) - m| ≤ |d| := by
  unfold clamp01
  rcases le_total d 0 with hd | hd
  · rcases le_total (m + d) 0 with hmd | hmd
    · rw [min_eq_right (by linarith), max_eq_left hmd,
        abs_of_nonpos (by linarith), abs_of_nonpos hd]
      linarith
    · rw [min_eq_right (by linarith), max_eq_right hmd,
        abs_of_nonpos (by linarith), abs_of_nonpos hd]
      linarith
  · rcases le_total (m + d) 1 with hmd | hmd
    · rw [min_eq_right hmd, max_eq_right (by linarith)]
      simp
    · rw [min_eq_left hmd, max_eq_right (by norm_num),
        abs_of_nonneg (by linarith), abs_of_nonneg hd]
      linarith

theorem moodDelta_abs_le (stim : InterpretedStimulus) :
    |moodDelta stim| ≤ 1/5 := by
  unfold moodDelta
  split_ifs <;> rw [abs_le] <;> constructor <;> norm_num

theorem getModifier_update_same (p : Personality) (m : PersonalityModifier)
    (v : ℚ) : (p.updateModifier m v).getModifier m = clamp01 v := by
  simp [Personality.updateModifier, Personality.getModifier]

theorem getModifier_update_other (p : Personality)
    (m m2 : PersonalityModifier) (v : ℚ) (h : m2 ≠ m) :
    (p.updateModifier m v).getModifier m2 = p.getModifier m2 := by
  simp [Personality.updateModifier, Personality.getModifier, h]

theorem alookup_mem {α β : Type} [DecidableEq α] (l : List (α × β)) (a : α)
    (b : β) (h : alookup l a = some b) : (a, b) ∈ l := by
  induction l with
  | nil => exact absurd h (by simp [alookup])
  | cons kv rest ih =>
      obtain ⟨k, v⟩ := kv
      by_cases hak : a = k
      · subst hak
        rw [alookup, if_pos rfl] at h
        injection h with h2
        subst h2
        exact List.mem_cons_self _ _
      · rw [alookup, if_neg hak] at h
        exact List.mem_cons_of_mem _ (ih h)

theorem sum_map_snd_div (l : List (ToolClass × ℚ)) (t : ℚ) :
    ((l.map (fun kv => (kv.1, kv.2 / t))).map Prod.snd).sum =
      ((l.map Prod.snd).sum) / t := by
  induction l with
  | nil => simp
  | cons kv rest ih =>
      rw [List.map_cons, List.map_cons, List.sum_cons, List.map_cons,
        List.sum_cons, ih, add_div]

/-- Core property of the pruning-and-renormalization stage: whenever the
pruned pool is nonempty, the kept total is positive, the normalized
weights sum to exactly 1, and every normalized weight is positive. -/
theorem pruneAndNormalize_spec (l : List (ToolClass × ℚ))
    (h : pruneAndNormalize l ≠ []) :
    ((pruneAndNormalize l).map Prod.snd).sum = 1 ∧
      ∀ kv ∈ pruneAndNormalize l, 0 < kv.2 := by
  have hmem : ∀ kv ∈ l.filter (fun kv => 1/100 < kv.2), (0:ℚ) < kv.2 := by
    intro kv hkv
    have h2 := (List.mem_filter.mp hkv).2
    have h3 : (1:ℚ)/100 < kv.2 := by simpa using h2
    linarith
  by_cases hnil : l.filter (fun kv => (1:ℚ)/100 < kv.2) = []
  · exfalso
    apply h
    simp only [pruneAndNormalize]
    rw [hnil]
    simp
  · have hsum : 0 < ((l.filter (fun kv => (1:ℚ)/100 < kv.2)).map Prod.snd).sum := by
      apply List.sum_pos
      · intro x hx
        obtain ⟨kv, hkv, rfl⟩ := List.mem_map.mp hx
        exact hmem kv hkv
      · simpa using hnil
    have hres : pruneAndNormalize l =
        (l.filter (fun kv => (1:ℚ)/100 < kv.2)).map
          (fun kv => (kv.1, kv.2 /
            ((l.filter (fun kv => (1:ℚ)/100 < kv.2)).map Prod.snd).sum)) := by
      simp only [pruneAndNormalize]
      rw [if_pos hsum]
    constructor
    · rw [hres, sum_map_snd_div, div_self (ne_of_gt hsum)]
    · intro kv hkv
      rw [hres] at hkv
      obtain ⟨kv0, hkv0, rfl⟩ := List.mem_map.mp hkv
      exact div_pos (hmem kv0 hkv0) hsum

theorem updateModifier_name (p : Personality) (m : PersonalityModifier)
    (v : ℚ) : (p.updateModifier m v).name = p.name := rfl

theorem updateModifier_traits (p : Personality) (m : PersonalityModifier)
    (v : ℚ) : (p.updateModifier m v).traits = p.traits := rfl

theorem updateModifier_quirks (p : Personality) (m : PersonalityModifier)
    (v : ℚ) : (p.updateModifier m v).quirks = p.quirks := rfl

theorem updateModifier_descr (p : Personality) (m : PersonalityModifier)
    (v : ℚ) : (p.updateModifier m v).description = p.description := rfl

/-! ## Claims -/

/-- C5 counterexample: `Personality.__post_init__` clamps only the trait
dict, so a modifier value stored out of range at construction is returned
verbatim by `get_modifier` — the claim that `get_modifier` always returns
a value in [0,1] for every constructed instance is false. -/
theorem C5_counterexample :
    Personality.getModifier pBadModifiers PersonalityModifier.mood = 3/2 ∧
      ¬ Personality.getModifier pBadModifiers PersonalityModifier.mood ≤ 1 := by
  constructor <;> decide

/-- C5 (amended): for every constructed `Personality`, `get_trait` always
returns a value in [0,1] (construction clamps traits) and the value
stored by `update_modifier` is always in [0,1] whatever the input; but
`get_modifier` returns the raw constructed modifier value, which lies in
[0,1] only when the constructed modifier dict does. -/
theorem C5_personality_bounds (name : String)
    (traits : PersonalityDimension → Option ℚ)
    (modifiers : PersonalityModifier → Option ℚ)
    (quirks : List String) (descr : Option String) :
    (∀ t, 0 ≤ (Personality.make name traits modifiers quirks descr).getTrait t ∧
        (Personality.make name traits modifiers quirks descr).getTrait t ≤ 1) ∧
    (∀ (p : Personality) (m : PersonalityModifier) (v : ℚ),
        0 ≤ (p.updateModifier m v).getModifier m ∧
        (p.updateModifier m v).getModifier m ≤ 1) ∧
    (∀ m, (∀ v, modifiers m = some v → 0 ≤ v ∧ v ≤ 1) →
        0 ≤ (Personality.make name traits modifiers quirks descr).getModifier m ∧
        (Personality.make name traits modifiers quirks descr).getModifier m ≤ 1) := by
  refine ⟨fun t => ?_, fun p m v => ?_, fun m hm => ?_⟩
  · simp only [Personality.make, Personality.postInit, Personality.getTrait]
    cases htv : traits t with
    | none => norm_num
    | some _ => simp [clamp01_nonneg, clamp01_le_one]
  · rw [getModifier_update_same]
    exact ⟨clamp01_nonneg v, clamp01_le_one v⟩
  · simp only [Personality.make, Personality.postInit, Personality.getModifier]
    cases hmv : modifiers m with
    | none => norm_num
    | some v => simpa using hm v hmv

/-- C5 witness: the amended bounds at the spec's out-of-range probe
values (a trait constructed as 10, a modifier updated to -5) and a
defaulted modifier lookup. -/
theorem C5_witness :
    (0 ≤ (Personality.make "w" (fun _ => some 10) (fun _ => some (-5)) [] none).getTrait
          PersonalityDimension.openness ∧
      (Personality.make "w" (fun _ => some 10) (fun _ => some (-5)) [] none).getTrait
          PersonalityDimension.openness ≤ 1) ∧
    (0 ≤ ((Personality.make "w" (fun _ => some 10) (fun _ => some (-5)) [] none).updateModifier
          PersonalityModifier.stress (-5)).getModifier PersonalityModifier.stress ∧
      ((Personality.make "w" (fun _ => some 10) (fun _ => some (-5)) [] none).updateModifier
          PersonalityModifier.stress (-5)).getModifier PersonalityModifier.stress ≤ 1) ∧
    (0 ≤ (Personality.make "n" (fun _ => none) (fun _ => none) [] none).getModifier
          PersonalityModifier.mood ∧
      (Personality.make "n" (fun _ => none) (fun _ => none) [] none).getModifier
          PersonalityModifier.mood ≤ 1) :=
  ⟨(C5_personality_bounds "w" (fun _ => some 10) (fun _ => some (-5)) [] none).1
      PersonalityDimension.openness,
   (C5_personality_bounds "w" (fun _ => some 10) (fun _ => some (-5)) [] none).2.1
      _ PersonalityModifier.stress (-5),
   (C5_personality_bounds "n" (fun _ => none) (fun _ => none) [] none).2.2
      PersonalityModifier.mood (fun _ hv => nomatch hv)⟩

/-- C8: `influence_value` equals the spec formula
`clamp(base + (trait - 0.5) * strength)`, and a neutral trait value of
0.5 leaves the base 0.5 unchanged for every strength. -/
theorem C8_influence_value (p : Personality) (base strength : ℚ)
    (t : PersonalityDimension) :
    p.influenceValue base t strength =
      clamp01 (base + (p.getTrait t - 1/2) * strength) ∧
    (p.getTrait t = 1/2 → p.influenceValue (1/2) t strength = 1/2) := by
  constructor
  · rfl
  · intro h
    simp only [Personality.influenceValue, h]
    norm_num [clamp01, min_def, max_def]

/-- C8 witness: the neutral-trait identity at the empty-dict personality
(trait lookup defaults to 0.5) and strength 7. -/
theorem C8_witness :
    Personality.influenceValue pNeutral (1/2) PersonalityDimension.aggressiveness 7 = 1/2 :=
  (C8_influence_value pNeutral (1/2) 7 PersonalityDimension.aggressiveness).2 (by decide)

/-- C2 counterexample: at the exact scenario of the claim (dialogue
stimulus with schema [insult], intent humiliate, emotional salience 0.9,
personality with aggressiveness 0.9 and neuroticism 0.7, stress 0.5 < 1,
mood 0.5 > 0), the `UPDATING_MODIFIERS` step leaves the stress modifier
unchanged: the stress branch fires only on the THREAT schema, which
[insult] lacks. -/
theorem C2_counterexample :
    Personality.getModifier pScenario PersonalityModifier.stress < 1 ∧
    0 < Personality.getModifier pScenario PersonalityModifier.mood ∧
    Personality.getModifier (updateModifiers pScenario stimInsult)
        PersonalityModifier.stress =
      Personality.getModifier pScenario PersonalityModifier.stress := by
  refine ⟨by decide, by decide, by decide⟩

/-- C2 (amended): for the scenario stimulus (dialogue, schema [insult],
intent humiliate, emotional salience 0.9), `UPDATING_MODIFIERS` strictly
decreases the mood modifier of any personality whose mood is above 0
(by 0.2 before clamping), and leaves the stress modifier unchanged. -/
theorem C2_insult_scenario (p : Personality)
    (hm : 0 < p.getModifier PersonalityModifier.mood) :
    Personality.getModifier (updateModifiers p stimInsult)
        PersonalityModifier.mood < p.getModifier PersonalityModifier.mood ∧
    Personality.getModifier (updateModifiers p stimInsult)
        PersonalityModifier.stress = p.getModifier PersonalityModifier.stress := by
  have hth : StimulusSchema.threat ∉ stimInsult.schema := by decide
  have hmd : moodDelta stimInsult = -(1/5) := by decide
  constructor
  · simp only [updateModifiers, if_neg hth, hmd]
    rw [getModifier_update_same]
    have harg : max 0 (min 1 (p.getModifier PersonalityModifier.mood + -(1/5))) =
        clamp01 (p.getModifier PersonalityModifier.mood - 1/5) := by
      rw [clamp01, sub_eq_add_neg]
    rw [harg, clamp01_clamp01]
    exact clamp01_sub_lt _ _ hm (by norm_num)
  · simp only [updateModifiers, if_neg hth, hmd]
    exact getModifier_update_other _ _ _ _ (by decide)

/-- C2 witness: the amended statement at the scenario personality
(aggressiveness 0.9, neuroticism 0.7, stress 0.5, mood 0.5). -/
theorem C2_witness :
    Personality.getModifier (updateModifiers pScenario stimInsult)
        PersonalityModifier.mood < Personality.getModifier pScenario PersonalityModifier.mood ∧
    Personality.getModifier (updateModifiers pScenario stimInsult)
        PersonalityModifier.stress = Personality.getModifier pScenario PersonalityModifier.stress :=
  C2_insult_scenario pScenario (by decide)

/-- C10: for any stimulus whose emotional salience entry (if present)
lies in [0,1] and any personality whose stress and mood are in [0,1],
the `UPDATING_MODIFIERS` step changes at most the STRESS and MOOD
modifiers — name, traits, quirks, description and the FAMILIARITY,
TRUST and POWER_DYNAMIC modifiers are untouched — and moves stress and
mood each by at most 0.2 in magnitude. -/
theorem C10_update_modifiers_frame (p : Personality)
    (stim : InterpretedStimulus)
    (hs0 : 0 ≤ p.getModifier PersonalityModifier.stress)
    (hs1 : p.getModifier PersonalityModifier.stress ≤ 1)
    (hm0 : 0 ≤ p.getModifier PersonalityModifier.mood)
    (hm1 : p.getModifier PersonalityModifier.mood ≤ 1)
    (hsal : ∀ v, alookup stim.salience SalienceType.emotional = some v →
        0 ≤ v ∧ v ≤ 1) :
    (updateModifiers p stim).name = p.name ∧
    (updateModifiers p stim).traits = p.traits ∧
    (updateModifiers p stim).quirks = p.quirks ∧
    (updateModifiers p stim).description = p.description ∧
    (updateModifiers p stim).getModifier PersonalityModifier.familiarity =
      p.getModifier PersonalityModifier.familiarity ∧
    (updateModifiers p stim).getModifier PersonalityModifier.trust =
      p.getModifier PersonalityModifier.trust ∧
    (updateModifiers p stim).getModifier PersonalityModifier.powerDynamic =
      p.getModifier PersonalityModifier.powerDynamic ∧
    |(updateModifiers p stim).getModifier PersonalityModifier.stress -
      p.getModifier PersonalityModifier.stress| ≤ 1/5 ∧
    |(updateModifiers p stim).getModifier PersonalityModifier.mood -
      p.getModifier PersonalityModifier.mood| ≤ 1/5 := by
  have he : 0 ≤ (alookup stim.salience SalienceType.emotional).getD (1/2) ∧
      (alookup stim.salience SalienceType.emotional).getD (1/2) ≤ 1 := by
    cases hv : alookup stim.salience SalienceType.emotional with
    | none => norm_num
    | some v => simpa using hsal v hv
  have hmoodstep : ∀ (q : Personality),
      (q.updateModifier PersonalityModifier.mood
        (max 0 (min 1 (q.getModifier PersonalityModifier.mood + moodDelta stim)))).getModifier
          PersonalityModifier.mood =
        clamp01 (q.getModifier PersonalityModifier.mood + moodDelta stim) := by
    intro q
    rw [getModifier_update_same]
    have harg : max 0 (min 1 (q.getModifier PersonalityModifier.mood + moodDelta stim)) =
        clamp01 (q.getModifier PersonalityModifier.mood + moodDelta stim) := rfl
    rw [harg, clamp01_clamp01]
  by_cases hth : StimulusSchema.threat ∈ stim.schema
  · simp only [updateModifiers, if_pos hth]
    refine ⟨rfl, rfl, rfl, rfl, ?_, ?_, ?_, ?_, ?_⟩
    · rw [getModifier_update_other _ _ _ _ (by decide),
        getModifier_update_other _ _ _ _ (by decide)]
    · rw [getModifier_update_other _ _ _ _ (by decide),
        getModifier_update_other _ _ _ _ (by decide)]
    · rw [getModifier_update_other _ _ _ _ (by decide),
        getModifier_update_other _ _ _ _ (by decide)]
    · rw [getModifier_update_other _ _ _ _ (by decide),
        getModifier_update_same]
      set s := p.getModifier PersonalityModifier.stress with hs
      set e := (alookup stim.salience SalienceType.emotional).getD (1/2) with hedef
      have hx0 : 0 ≤ min 1 (s + 1/5 * e) := by
        apply le_min (by norm_num)
        have := he.1
        linarith
      have hx1 : min 1 (s + 1/5 * e) ≤ 1 := min_le_left _ _
      rw [clamp01_eq_self _ hx0 hx1]
      have hlow : s ≤ min 1 (s + 1/5 * e) := by
        apply le_min hs1
        have := he.1
        linarith
      have hhigh : min 1 (s + 1/5 * e) ≤ s + 1/5 := by
        apply le_trans (min_le_right _ _)
        have := he.2
        linarith
      rw [abs_le]
      constructor <;> linarith
    · rw [hmoodstep _, getModifier_update_other _ _ _ _ (by decide)]
      exact le_trans (abs_clamp01_shift _ _ hm0 hm1) (moodDelta_abs_le stim)
  · simp only [updateModifiers, if_neg hth]
    refine ⟨rfl, rfl, rfl, rfl, ?_, ?_, ?_, ?_, ?_⟩
    · exact getModifier_update_other _ _ _ _ (by decide)
    · exact getModifier_update_other _ _ _ _ (by decide)
    · exact getModifier_update_other _ _ _ _ (by decide)
    · rw [getModifier_update_other _ _ _ _ (by decide)]
      simp
    · rw [hmoodstep p]
      exact le_trans (abs_clamp01_shift _ _ hm0 hm1) (moodDelta_abs_le stim)

/-- C10 witness: the stress and mood movement bounds at the scenario
personality and the insult stimulus (emotional salience 0.9). -/
theorem C10_witness :
    |Personality.getModifier (updateModifiers pScenario stimInsult)
        PersonalityModifier.stress -
      Personality.getModifier pScenario PersonalityModifier.stress| ≤ 1/5 ∧
    |Personality.getModifier (updateModifiers pScenario stimInsult)
        PersonalityModifier.mood -
      Personality.getModifier pScenario PersonalityModifier.mood| ≤ 1/5 := by
  have h := C10_update_modifiers_frame pScenario stimInsult (by decide)
    (by decide) (by decide) (by decide)
    (fun v hv => by
      have h0 : alookup stimInsult.salience SalienceType.emotional =
          some ((9:ℚ)/10) := by decide
      rw [h0] at hv
      injection hv with h1
      subst h1
      constructor <;> norm_num)
  exact ⟨h.2.2.2.2.2.2.2.1, h.2.2.2.2.2.2.2.2⟩

/-- C4 counterexample: a reachable execution (environment stimulus with
no schema tags and empty salience, neutral personality, every jitter
draw at the lower end -0.15 of the uniform spread) prunes every
candidate, so the probability engine returns the empty mapping, whose
weights sum to 0 rather than 1. -/
theorem C4_counterexample :
    calculateToolProbabilities pNeutral stimEnv (fun _ => -(3/20)) = [] ∧
    ((calculateToolProbabilities pNeutral stimEnv
        (fun _ => -(3/20))).map Prod.snd).sum ≠ 1 := by
  constructor <;> decide

/-- C4 (amended): whenever the pruned pool is nonempty, the probability
engine's output sums to exactly 1 and every entry is strictly positive
(entries at or below the 0.01 threshold are dropped before
renormalization, though renormalization itself may scale a kept weight
back below 0.01); when pruning empties the pool the output is the empty
mapping, whose weights sum to 0. -/
theorem C4_distribution (p : Personality) (stim : InterpretedStimulus)
    (jitter : ToolClass → ℚ)
    (h : calculateToolProbabilities p stim jitter ≠ []) :
    ((calculateToolProbabilities p stim jitter).map Prod.snd).sum = 1 ∧
    ∀ kv ∈ calculateToolProbabilities p stim jitter, 0 < kv.2 := by
  simp only [calculateToolProbabilities] at h ⊢
  exact pruneAndNormalize_spec _ h

/-- C4 witness: the normalized sum at a concrete nonempty pool (neutral
personality, insult dialogue stimulus, zero jitter). -/
theorem C4_witness :
    ((calculateToolProbabilities pNeutral stimInsult
        (fun _ => 0)).map Prod.snd).sum = 1 :=
  (C4_distribution pNeutral stimInsult (fun _ => 0) (by decide)).1

/-- C1 counterexample: for a valid stimulus (environment type, no schema
tags, empty salience), the populated 82-tool registry, a neutral
personality and a reachable jitter draw (every offset at -0.15), pruning
removes every candidate and `decide_and_act` raises
`ValueError("No suitable tools available for decision.")` instead of
failing open to a default action. -/
theorem C1_counterexample :
    decideAndAct engineNeutral stimEnv oraclesLow =
      .error "No suitable tools available for decision." := by
  rfl

/-- C1 (amended): on the heuristic path `decide_and_act` returns a
description string whenever the pruned candidate pool is nonempty; when
pruning empties the pool, `_select_tool` raises `ValueError` instead of
selecting a designated default action. -/
theorem C1_decide_and_act_ok (e : DecisionEngine)
    (stim : InterpretedStimulus) (oracles : DecisionOracles)
    (hllm : e.useLlm = false)
    (hpool : calculateToolProbabilities (updateModifiers e.personality stim)
        stim oracles.jitter ≠ []) :
    (decideAndAct e stim oracles).isOk = true := by
  have hsel : selectTool
      { e with personality := updateModifiers e.personality stim } stim oracles =
      .ok (weightedPick
        (calculateToolProbabilities (updateModifiers e.personality stim)
          stim oracles.jitter) oracles.pick) := by
    simp only [selectTool, hllm, Bool.false_eq_true, if_false]
    rw [if_neg hpool]
  simp only [decideAndAct, hsel]
  rfl

/-- C1 witness: a successful heuristic decision cycle at the insult
dialogue stimulus with zero jitter. -/
theorem C1_witness :
    (decideAndAct engineNeutral stimInsult oraclesZero).isOk = true :=
  C1_decide_and_act_ok engineNeutral stimInsult oraclesZero rfl (by decide)

/-- C3 counterexample: with the adapter configured to raise, the
`except` block of `_llm_select_tool` recomputes the heuristic pool; at a
reachable jitter draw (every offset at -0.15) that pool is empty and the
`zip(*tool_probabilities.items())` unpacking raises a `ValueError` that
propagates to the caller of `decide_and_act`. -/
theorem C3_counterexample :
    decideAndAct engineLlm stimEnv oraclesLow =
      .error "not enough values to unpack (expected 2, got 0)" := by
  rfl

/-- C3 (amended): when the adapter call raises, `decide_and_act` falls
back to heuristic weighted selection and returns a description string
provided the heuristic pool is nonempty; with an empty heuristic pool
the fallback itself raises, so the containment is conditional. -/
theorem C3_adapter_fallback (e : DecisionEngine)
    (stim : InterpretedStimulus) (oracles : DecisionOracles) (msg : String)
    (hllm : e.useLlm = true) (hcl : e.hasClient = true)
    (hadapter : oracles.adapterAction = .error msg)
    (hpool : calculateToolProbabilities (updateModifiers e.personality stim)
        stim oracles.jitter ≠ []) :
    (decideAndAct e stim oracles).isOk = true := by
  have hsel : selectTool
      { e with personality := updateModifiers e.personality stim } stim oracles =
      .ok (weightedPick
        (calculateToolProbabilities (updateModifiers e.personality stim)
          stim oracles.jitter) oracles.pick) := by
    simp only [selectTool, hllm, if_true, hcl, llmSelectTool, hadapter]
    rw [if_neg hpool]
  simp only [decideAndAct, hsel]
  rfl

/-- C3 witness: with the adapter raising, the fallback still completes a
decision cycle at the insult dialogue stimulus with zero jitter. -/
theorem C3_witness :
    (decideAndAct engineLlm stimInsult oraclesZero).isOk = true :=
  C3_adapter_fallback engineLlm stimInsult oraclesZero "service unavailable"
    rfl rfl rfl (by decide)

/-- C6 counterexample: constructing a `DecisionEngine` around a
personality already mutates it — `__init__` resets MOOD to 0.5 (and
STRESS to 0.2) before any decide-and-act cycle runs, so construction is
an orchestrator operation other than `UPDATING_MODIFIERS` that mutates
the owned personality. -/
theorem C6_counterexample :
    Personality.getModifier (engineInit false false pMoodHigh).personality
        PersonalityModifier.mood ≠
      Personality.getModifier pMoodHigh PersonalityModifier.mood := by
  decide

/-- C6 (amended): within a completed decide-and-act cycle the owned
personality is mutated exactly by the `UPDATING_MODIFIERS` step —
selection, parameter building, execution and history recording leave it
as that step produced it; additionally, engine construction itself
resets the MOOD and STRESS modifiers. -/
theorem C6_personality_mutation (e : DecisionEngine)
    (stim : InterpretedStimulus) (oracles : DecisionOracles)
    (e2 : DecisionEngine) (result : String)
    (h : decideAndAct e stim oracles = .ok (e2, result)) :
    e2.personality = updateModifiers e.personality stim := by
  cases hsel : selectTool
      { e with personality := updateModifiers e.personality stim } stim oracles with
  | error msg =>
      simp only [decideAndAct, hsel] at h
      exact Except.noConfusion h
  | ok cls =>
      simp only [decideAndAct, hsel] at h
      injection h with h1
      injection h1 with h2 h3
      rw [← h2]

/-- C6 witness: a completed decision cycle whose resulting personality is
exactly the `UPDATING_MODIFIERS` image of the engine's personality. -/
theorem C6_witness :
    (decideAndAct engineNeutral stimInsult oraclesZero).toOption.map
        (fun r => r.1.personality) =
      some (updateModifiers engineNeutral.personality stimInsult) := by
  have hok : (decideAndAct engineNeutral stimInsult oraclesZero).isOk = true := by
    decide
  rcases h : decideAndAct engineNeutral stimInsult oraclesZero with msg | pr
  · rw [h] at hok
    simp [Except.toBool] at hok
  · obtain ⟨e2, result⟩ := pr
    have h2 := C6_personality_mutation engineNeutral stimInsult oraclesZero
      e2 result h
    simp [Except.toOption, h2]

/-- C9: every completed `decide_and_act` call appends exactly one record
`(stimulus, tool name)` to the decision history, preserving all existing
entries and their order, so the history grows by exactly one entry per
call. -/
theorem C9_history_append (e : DecisionEngine) (stim : InterpretedStimulus)
    (oracles : DecisionOracles) (e2 : DecisionEngine) (result : String)
    (h : decideAndAct e stim oracles = .ok (e2, result)) :
    ∃ toolName, e2.decisionHistory = e.decisionHistory ++ [(stim, toolName)] ∧
      e2.decisionHistory.length = e.decisionHistory.length + 1 := by
  cases hsel : selectTool
      { e with personality := updateModifiers e.personality stim } stim oracles with
  | error msg =>
      simp only [decideAndAct, hsel] at h
      exact Except.noConfusion h
  | ok cls =>
      simp only [decideAndAct, hsel] at h
      injection h with h1
      injection h1 with h2 h3
      refine ⟨cls.instanceName, ?_, ?_⟩
      · rw [← h2]
      · rw [← h2]
        simp

/-- C9 witness: after one completed call on a fresh engine the history
has exactly one entry. -/
theorem C9_witness :
    (decideAndAct engineNeutral stimInsult oraclesZero).toOption.map
        (fun r => r.1.decisionHistory.length) = some 1 := by
  have hok : (decideAndAct engineNeutral stimInsult oraclesZero).isOk = true := by
    decide
  rcases h : decideAndAct engineNeutral stimInsult oraclesZero with msg | pr
  · rw [h] at hok
    simp [Except.toBool] at hok
  · obtain ⟨e2, result⟩ := pr
    obtain ⟨nm, hnm, hlen⟩ := C9_history_append engineNeutral stimInsult
      oraclesZero e2 result h
    simp only [Except.toOption, Option.map, hlen]
    rfl

/-- C7: the LLM-action-to-tool mapping is total — every identifier maps
to a name registered in `_TOOL_REGISTRY` (so `_decision_to_tool`'s
lookup never fails): speech-prefixed identifiers map to their designated
dialogue tools, identifiers in the fixed table map to their table entry
(no table key carries a speech prefix), and every other identifier falls
back to `DialogueResponseTool`. -/
theorem C7_action_mapping_total (a : String) :
    (getTool (mapActionToTool a)).isSome = true ∧
    ((strStartsWith a "say_" = true ∨ strStartsWith a "speak_" = true ∨
        a = "speak" ∨ a = "say") →
      mapActionToTool a = "DialogueResponseTool") ∧
    (¬(strStartsWith a "say_" = true ∨ strStartsWith a "speak_" = true ∨
        a = "speak" ∨ a = "say") →
      strStartsWith a "ask_" = true →
      mapActionToTool a = "AskQuestionTool") ∧
    (¬(strStartsWith a "say_" = true ∨ strStartsWith a "speak_" = true ∨
        a = "speak" ∨ a = "say") →
      ¬strStartsWith a "ask_" = true →
      (strStartsWith a "monologue_" = true ∨ a = "monologue") →
      mapActionToTool a = "MonologueTool") ∧
    (∀ t, alookup actionToToolTable a = some t → mapActionToTool a = t) ∧
    (alookup actionToToolTable a = none →
      ¬(strStartsWith a "say_" = true ∨ strStartsWith a "speak_" = true ∨
        a = "speak" ∨ a = "say") →
      ¬strStartsWith a "ask_" = true →
      ¬(strStartsWith a "monologue_" = true ∨ a = "monologue") →
      mapActionToTool a = "DialogueResponseTool") := by
  have keyfacts : ∀ kv ∈ actionToToolTable, (getTool kv.2).isSome = true ∧
      strStartsWith kv.1 "say_" = false ∧ strStartsWith kv.1 "speak_" = false ∧
      kv.1 ≠ "speak" ∧ kv.1 ≠ "say" ∧ strStartsWith kv.1 "ask_" = false ∧
      strStartsWith kv.1 "monologue_" = false ∧ kv.1 ≠ "monologue" := by
    decide
  have hiff1 : (strStartsWith a "say_" || strStartsWith a "speak_" ||
      a = "speak" || a = "say") = true ↔
      (strStartsWith a "say_" = true ∨ strStartsWith a "speak_" = true ∨
        a = "speak" ∨ a = "say") := by
    simp [Bool.or_eq_true, or_assoc]
  have hiff3 : (strStartsWith a "monologue_" || a = "monologue") = true ↔
      (strStartsWith a "monologue_" = true ∨ a = "monologue") := by
    simp [Bool.or_eq_true]
  by_cases h1 : (strStartsWith a "say_" || strStartsWith a "speak_" ||
      a = "speak" || a = "say") = true
  · have hmap : mapActionToTool a = "DialogueResponseTool" := by
      unfold mapActionToTool
      rw [if_pos h1]
    have hnokey : ∀ t, alookup actionToToolTable a = some t → False := by
      intro t ht
      have hk := keyfacts _ (alookup_mem _ _ _ ht)
      rcases hiff1.mp h1 with hs | hs | hs | hs
      · rw [hk.2.1] at hs
        exact Bool.noConfusion hs
      · rw [hk.2.2.1] at hs
        exact Bool.noConfusion hs
      · exact hk.2.2.2.1 hs
      · exact hk.2.2.2.2.1 hs
    refine ⟨by rw [hmap]; decide, fun _ => hmap,
      fun hn _ => absurd (hiff1.mp h1) hn,
      fun hn _ _ => absurd (hiff1.mp h1) hn,
      fun t ht => absurd (hnokey t ht) not_false,
      fun _ hn _ _ => absurd (hiff1.mp h1) hn⟩
  · have hn1 : ¬(strStartsWith a "say_" = true ∨ strStartsWith a "speak_" = true ∨
        a = "speak" ∨ a = "say") := fun hp => h1 (hiff1.mpr hp)
    by_cases h2 : strStartsWith a "ask_" = true
    · have hmap : mapActionToTool a = "AskQuestionTool" := by
        unfold mapActionToTool
        rw [if_neg h1, if_pos h2]
      have hnokey : ∀ t, alookup actionToToolTable a = some t → False := by
        intro t ht
        have hk := keyfacts _ (alookup_mem _ _ _ ht)
        rw [hk.2.2.2.2.2.1] at h2
        exact Bool.noConfusion h2
      refine ⟨by rw [hmap]; decide, fun hp => absurd hp hn1,
        fun _ _ => hmap,
        fun _ hn2 _ => absurd h2 hn2,
        fun t ht => absurd (hnokey t ht) not_false,
        fun _ _ hn2 _ => absurd h2 hn2⟩
    · by_cases h3 : (strStartsWith a "monologue_" || a = "monologue") = true
      · have hmap : mapActionToTool a = "MonologueTool" := by
          unfold mapActionToTool
          rw [if_neg h1, if_neg h2, if_pos h3]
        have hnokey : ∀ t, alookup actionToToolTable a = some t → False := by
          intro t ht
          have hk := keyfacts _ (alookup_mem _ _ _ ht)
          rcases hiff3.mp h3 with hs | hs
          · rw [hk.2.2.2.2.2.2.1] at hs
            exact Bool.noConfusion hs
          · exact hk.2.2.2.2.2.2.2 hs
        refine ⟨by rw [hmap]; decide, fun hp => absurd hp hn1,
          fun _ h2p => absurd h2p h2,
          fun _ _ _ => hmap,
          fun t ht => absurd (hnokey t ht) not_false,
          fun _ _ _ hn3 => absurd (hiff3.mp h3) hn3⟩
      · cases hlt : alookup actionToToolTable a with
        | some t =>
            have hmap : mapActionToTool a = t := by
              unfold mapActionToTool
              rw [if_neg h1, if_neg h2, if_neg h3, hlt]
            have hreg : (getTool t).isSome = true :=
              (keyfacts _ (alookup_mem _ _ _ hlt)).1
            refine ⟨by rw [hmap]; exact hreg, fun hp => absurd hp hn1,
              fun _ h2p => absurd h2p h2,
              fun _ _ h3p => absurd (hiff3.mpr h3p) h3,
              fun t2 ht2 => ?_,
              fun hnone => absurd hnone (by simp)⟩
            injection ht2 with ht3
            rw [hmap]
            exact ht3
        | none =>
            have hmap : mapActionToTool a = "DialogueResponseTool" := by
              unfold mapActionToTool
              rw [if_neg h1, if_neg h2, if_neg h3, hlt]
            refine ⟨by rw [hmap]; decide, fun hp => absurd hp hn1,
              fun _ h2p => absurd h2p h2,
              fun _ _ h3p => absurd (hiff3.mpr h3p) h3,
              fun t2 ht2 => Option.noConfusion ht2,
              fun _ _ _ _ => hmap⟩

/-- C7 witness: a table identifier, a prefixed identifier and an unknown
identifier all map to registered tools. -/
theorem C7_witness :
    mapActionToTool "attack" = "AttackTool" ∧
    mapActionToTool "say_farewell" = "DialogueResponseTool" ∧
    mapActionToTool "do_a_backflip" = "DialogueResponseTool" :=
  ⟨(C7_action_mapping_total "attack").2.2.2.2.1 "AttackTool" (by decide),
   (C7_action_mapping_total "say_farewell").2.1 (Or.inl (by decide)),
   (C7_action_mapping_total "do_a_backflip").2.2.2.2.2 (by decide) (by decide)
     (by decide) (by decide)⟩

end ToxicNpcs
